import Mathlib

/-!
# AuraPin (Pinterest affiliate curator) — verification development

Shallow embedding of the product intake / dedup / staging pipeline of
`agent_core.py` and `app.py`:

* the SQLite dedup ledger (`is_product_posted`, `mark_product_posted`);
* the AWIN feed loader (`fetch_awin_product_feed`) over a model of
  `pandas.read_csv` for plain, unquoted tabular text;
* the description generator (`generate_pin_description`) with its OpenAI
  branch, template branch, hashtag sampling and disclaimer;
* the Streamlit app's filter / random-sample batch selection and the
  "Approve & Post" button handler.

External effects (HTTP, the OpenAI call, randomness, SQLite, wall-clock
time) are passed in explicitly: a network is a function from URL to a
`NetResult`, the outcome of the OpenAI call is an `Except String String`,
and randomness is an oracle `Nat → Nat` driving index selection.  String
splitting, stripping and joining are defined structurally over the
character list so that every definition evaluates by kernel reduction.
-/

/-!
## String helpers
-/

/-- Containment of `p` as a contiguous segment of `l`; model of Python's
`in` operator on strings (substring test). -/
def containsSeg (p : List Char) : List Char → Bool
  | [] => p.isEmpty
  | c :: t => p.isPrefixOf (c :: t) || containsSeg p t

/-- Model of Python `needle in hay` for strings. -/
def strContains (needle hay : String) : Bool :=
  containsSeg needle.data hay.data

/-- A single-quote character as a string, used when reproducing Python
`repr` output and f-strings containing quotes. -/
def pyQuote : String := String.singleton (Char.ofNat 39)

/-- Join a list of strings with a separator; model of Python
`sep.join(...)`. -/
def joinSep (sep : String) : List String → String
  | [] => ""
  | [x] => x
  | x :: y :: t => x ++ sep ++ joinSep sep (y :: t)

/-- Python `repr` of a list of strings, as interpolated into f-strings. -/
def pyListRepr (l : List String) : String :=
  "[" ++ joinSep ", " (l.map (fun c => pyQuote ++ c ++ pyQuote)) ++ "]"

/-- Python `str.isspace` characters (the ones `str.strip()` removes). -/
def isPySpace (c : Char) : Bool :=
  c = ' ' || c = Char.ofNat 9 || c = Char.ofNat 10 || c = Char.ofNat 13
    || c = Char.ofNat 11 || c = Char.ofNat 12

/-- Model of Python `str.strip()`: drop whitespace from both ends. -/
def pyStrip (s : String) : String :=
  ⟨((s.data.dropWhile isPySpace).reverse.dropWhile isPySpace).reverse⟩

/-- Split a character list at every occurrence of `c`; `acc` holds the
(reversed) characters of the chunk in progress. -/
def splitCharAux (c : Char) : List Char → List Char → List (List Char)
  | [], acc => [acc.reverse]
  | x :: xs, acc =>
    if x = c then acc.reverse :: splitCharAux c xs []
    else splitCharAux c xs (x :: acc)

/-- Split a string at every occurrence of the character `c` (model of
Python `str.split(c)` for a one-character separator). -/
def splitOnChar (c : Char) (s : String) : List String :=
  (splitCharAux c s.data []).map (fun l => ⟨l⟩)

/-- The last line of a string (the text after the last newline). -/
def lastLine (s : String) : String :=
  ⟨(splitCharAux (Char.ofNat 10) s.data []).getLastD []⟩

/-!
## Randomness model

Python's `random.sample(population, k)` returns `k` elements drawn at
distinct positions of `population`, without replacement.  We model the
random source as an oracle `r : Nat → Nat`; `drawIdxs k avail r` picks `k`
indices one at a time from the pool `avail` of still-available indices,
each pick removing the chosen index from the pool.  `random.choice` is
modelled by reducing one oracle value modulo the list length.
-/

/-- One pick from the pool of available indices, driven by oracle value
`rv`. -/
def pick1 (avail : List Nat) (rv : Nat) : Nat :=
  avail.getD (rv % avail.length) 0

/-- Draw `k` values from the pool `avail` without replacement, the oracle
`r` choosing the position of each pick. -/
def drawIdxs : Nat → List Nat → (Nat → Nat) → List Nat
  | 0, _, _ => []
  | _ + 1, [], _ => []
  | k + 1, a :: rest, r =>
    pick1 (a :: rest) (r k) :: drawIdxs k ((a :: rest).erase (pick1 (a :: rest) (r k))) r

/-- Model of Python `random.sample(l, k)` with random oracle `r`:
the elements of `l` at `k` distinct positions. `dflt` is never selected
when the indices are in range (they always are). -/
def randomSample (dflt : α) (l : List α) (k : Nat) (r : Nat → Nat) : List α :=
  (drawIdxs k (List.range l.length) r).map (fun i => l.getD i dflt)

/-!
## Dedup Ledger (`agent_core.py`, DATABASE MODULE)

The SQLite table `posted_products (product_id TEXT PRIMARY KEY,
post_date TIMESTAMP, pin_id TEXT)` is modelled as a list of entries;
the PRIMARY KEY constraint makes an `INSERT` of an existing identifier
raise `sqlite3.IntegrityError`, modelled by `DbResult.integrityError`.
-/

/-- A row of the `posted_products` table. -/
structure LedgerEntry where
  product_id : String
  post_date : Nat
  pin_id : String
deriving DecidableEq, Repr

/-- The `posted_products` table: the database state. -/
abbrev Ledger := List LedgerEntry

/-- Model of `is_product_posted`: `SELECT product_id FROM posted_products WHERE
product_id=?` followed by `fetchone() is not None`. -/
def is_product_posted (db : Ledger) (product_id : String) : Bool :=
  db.any (fun e => e.product_id == product_id)

/-- Outcome of a SQLite `INSERT` under the primary-key constraint. -/
inductive DbResult where
  | ok (db : Ledger)
  | integrityError
deriving DecidableEq, Repr

/-- Model of `mark_product_posted`: `INSERT INTO posted_products (product_id,
post_date, pin_id) VALUES (?, ?, ?)`; the PRIMARY KEY on `product_id`
makes the insert fail with `sqlite3.IntegrityError` when the identifier
is already present, else the row is appended and committed. -/
def mark_product_posted (db : Ledger) (product_id : String) (now : Nat)
    (pin_id : String) : DbResult :=
  if is_product_posted db product_id then DbResult.integrityError
  else DbResult.ok (db ++ [⟨product_id, now, pin_id⟩])

/-!
## Feed Loader (`agent_core.py`, DATA FETCHING MODULE)
-/

/-- A parsed table: a model of the `pandas.DataFrame` produced by
`pd.read_csv` (column labels plus rows of cells; missing trailing cells
are NaN, modelled as `""`). `pd.DataFrame()` is `emptyDF`. -/
structure DataFrame where
  columns : List String
  rows : List (List String)
deriving DecidableEq, Repr

/-- The empty `pd.DataFrame()` returned on every error path. -/
def emptyDF : DataFrame := ⟨[], []⟩

/-- Pad a row to the header width with NaN cells (modelled as `""`). -/
def padRow (width : Nat) (row : List String) : List String :=
  row ++ List.replicate (width - row.length) ""

/-- Model of `pd.read_csv(io.StringIO(text), sep=sep)` for plain,
unquoted tabular text: the first non-blank line is the header, each
further line is split on the separator.  The header and the first data
row establish the expected width: when the first data row is WIDER than
the header, pandas raises nothing and instead infers the leftmost extra
fields of every row as index columns (the documented implicit-index
behavior), so the column labels stay the header fields.  A later row
with more fields than that established width raises `ParserError`
(pandas: "Error tokenizing data"); a row with fewer fields is
NaN-padded; an empty input raises `EmptyDataError`. -/
def read_csv (sep : Char) (text : String) : Except String DataFrame :=
  match (splitOnChar (Char.ofNat 10) text).filter (fun l => l ≠ "") with
  | [] => Except.error "EmptyDataError: No columns to parse from file"
  | header :: body =>
    let cols := splitOnChar sep header
    let width := match body with
      | [] => cols.length
      | first :: _ => max cols.length (splitOnChar sep first).length
    if body.any (fun row => (splitOnChar sep row).length > width) then
      Except.error "Error tokenizing data"
    else
      Except.ok ⟨cols, body.map (fun row =>
        (padRow width (splitOnChar sep row)).drop (width - cols.length))⟩

/-- The inner `try/except` of `fetch_awin_product_feed`: parse with
`sep=','`; if that raises, parse with `sep='\t'` (whose error, if any,
escapes to the outer handler). -/
def parse_feed (text : String) : Except String DataFrame :=
  match read_csv ',' text with
  | Except.ok df => Except.ok df
  | Except.error _ => read_csv (Char.ofNat 9) text

/-- Outcome of `requests.get` + `raise_for_status`. -/
inductive NetResult where
  | ok (body : String)
  | fail (err : String)
deriving DecidableEq, Repr

/-- The list `required_cols` from `fetch_awin_product_feed`. -/
def required_cols : List String :=
  ["product_name", "awin_deep_link", "product_image", "description", "price", "product_id"]

/-- The f-string message "Feed is missing one of the required columns: "
followed by the Python repr of `required_cols`. -/
def missingColsMsg : String :=
  "Feed is missing one of the required columns: " ++ pyListRepr required_cols

/-- Model of `fetch_awin_product_feed(awin_feed_url)`: placeholder-URL guard, HTTP
fetch (the network passed in as `net`), delimiter-fallback parse, then the
required-columns check.  Returns the dataframe and the status message. -/
def fetch_awin_product_feed (net : String → NetResult) (awin_feed_url : String) :
    DataFrame × String :=
  if awin_feed_url = "" || strContains "..." awin_feed_url then
    (emptyDF, "Please provide a valid AWIN Product Feed URL in the settings.")
  else
    match net awin_feed_url with
    | NetResult.fail e => (emptyDF, "Error fetching AWIN feed: " ++ e)
    | NetResult.ok text =>
      match parse_feed text with
      | Except.error e =>
        (emptyDF, "An error occurred while parsing the feed: " ++ e
          ++ ". Check if it" ++ pyQuote ++ "s a valid CSV.")
      | Except.ok df =>
        if required_cols.all (fun col => df.columns.contains col) then
          (df, "Successfully fetched and parsed " ++ toString df.rows.length
            ++ " products from the feed.")
        else
          (emptyDF, missingColsMsg)

/-!
## Content enrichment (`agent_core.py`, `generate_pin_description`)
-/

/-- The template list `descriptions` of `generate_pin_description`. -/
def pin_templates (product_title price : String) : List String :=
  ["Loving this " ++ product_title ++ "! Perfect for my home. 🛍️",
   "Just found this amazing " ++ product_title ++ ". What do you think?",
   "Great deal alert! 🚨 " ++ product_title ++ " for only " ++ price ++ "!"]

/-- The hashtag block: `num_hashtags = min(len(hashtag_list), 3)` then
`' '.join('#' + tag.strip() for tag in random.sample(hashtag_list,
num_hashtags))`.  `none` models a non-sequence value for `hashtag_list`,
whose `len`/`random.sample` raise `TypeError`, caught by the handler and
yielding the empty block (an empty list yields `random.sample(l, 0) = []`
and hence also the empty block, with no exception). -/
def hashtagBlock (hashtag_list : Option (List String)) (r : Nat → Nat) : String :=
  match hashtag_list with
  | none => ""
  | some l =>
    joinSep " " ((randomSample "" l (min l.length 3) r).map (fun tag => "#" ++ pyStrip tag))

/-- Model of `generate_pin_description(product_title, product_desc, price,
use_openai, openai_api_key, disclaimer, hashtag_list)`.

`ai` is the outcome of the `openai.ChatCompletion.create` call (consulted
only when the OpenAI branch reaches it); `c` drives `random.choice` over
the template list and `r` drives `random.sample` over the hashtag pool.
Mirrors the source control flow: a missing or placeholder key returns an
error message with flag `False`; an exception from the external call
returns the "Error with OpenAI" text — which ends in "Falling back to
template." — paired with flag `False`, without running the template path;
otherwise `base_description` is the stripped response, the template path
running only when `base_description` is still empty; the final text is
the base text, a blank line, the hashtag block, a newline and the
disclaimer, with flag `True`. -/
def generate_pin_description (product_title product_desc price : String)
    (use_openai : Bool) (openai_api_key disclaimer : String)
    (hashtag_list : Option (List String)) (ai : Except String String)
    (c : Nat) (r : Nat → Nat) : String × Bool :=
  let finish : String → String × Bool := fun base0 =>
    let base := if base0 = "" then (pin_templates product_title price).getD (c % 3) ""
                else base0
    (base ++ "\n\n" ++ hashtagBlock hashtag_list r ++ "\n" ++ disclaimer, true)
  if use_openai then
    if openai_api_key = "" || strContains "..." openai_api_key then
      ("OpenAI API key is missing. Please provide it in the settings.", false)
    else
      match ai with
      | Except.error e =>
        ("Error with OpenAI: " ++ e ++ ". Falling back to template.", false)
      | Except.ok text => finish (pyStrip text)
  else
    finish ""

/-!
## Intake pipeline and staging (`app.py`)
-/

/-- A feed row as consumed by the app loop (`product['product_id']` etc.). -/
structure Product where
  product_id : String
  product_name : String
  description : String
  price : String
  product_image : String
  awin_deep_link : String
deriving DecidableEq, Repr

/-- Fallback `Product`, never selected by in-range sampling. -/
def defaultProduct : Product := ⟨"", "", "", "", "", ""⟩

/-- The filter loop of `app.py`: keep the feed rows whose identifier is
not yet in the ledger. -/
def unposted_products (db : Ledger) (products : List Product) : List Product :=
  products.filter (fun p => !is_product_posted db p.product_id)

/-- The batch `products_to_process = random.sample(unposted_products,
min(len(unposted_products), max_pins_per_run))`. -/
def products_to_process (db : Ledger) (products : List Product)
    (max_pins_per_run : Nat) (r : Nat → Nat) : List Product :=
  randomSample defaultProduct (unposted_products db products)
    (min (unposted_products db products).length max_pins_per_run) r

/-- A staged candidate: the `pin_data` dict appended to
`st.session_state.pins_to_review`. -/
structure PinData where
  product_id : String
  title : String
  description : String
  image_path : String
  product_url : String
deriving DecidableEq, Repr

/-- The app's mutable state across operator interactions: the staging
queue, the database, the trace of simulated Pinterest posts (one entry
per successful `create_pin` call, recording the product URL), and the
log. -/
structure AppState where
  pins_to_review : List PinData
  db : Ledger
  published : List String
  logs : List String
deriving DecidableEq, Repr

/-- Model of `create_pin(pinterest_access_token, board_id, image_path, description,
product_url, title)`: placeholder checks on token and board, then the
simulated post whose pin id is "simulated_" followed by a fresh
`uuid.uuid4()` value (passed in as `pinUuid`). -/
def create_pin (pinterest_access_token board_id : String)
    (image_path description product_url : String) (pinUuid : String) :
    Option String × String :=
  if pinterest_access_token = "" || strContains "..." pinterest_access_token then
    (none, "Pinterest Access Token is missing. Please provide it in the settings.")
  else if board_id = "" || strContains "..." board_id then
    (none, "Pinterest Board ID is missing. Please provide it in the settings.")
  else
    let pin_id := "simulated_" ++ pinUuid
    (some pin_id, "Pin (simulated) created for " ++ product_url ++ " with Pin ID "
      ++ pin_id ++ ". NOTE: Real posting requires image hosting.")

/-- How one click of "Approve & Post to Pinterest" ends. -/
inductive ApproveOutcome where
  | posted (pin_id : String)
  | postFailed
  | crashed (exn : String)
deriving DecidableEq, Repr

/-- The "Approve & Post to Pinterest" button handler of `app.py` for the
candidate `pin`: call `create_pin`; log its message; if a pin id came
back, the simulated post has happened (recorded in `published`), then
`mark_product_posted` runs with NO exception handling — an
`IntegrityError` escapes and crashes the script run (`crashed`).  In no
branch is `pin` removed from `pins_to_review` (the code only prints
"It will be removed from this list on the next run"). -/
def approveClick (st : AppState) (pin : PinData)
    (pinterest_access_token board_id : String) (pinUuid : String) (now : Nat) :
    AppState × ApproveOutcome :=
  match create_pin pinterest_access_token board_id pin.image_path
      pin.description pin.product_url pinUuid with
  | (none, msg) => ({ st with logs := msg :: st.logs }, ApproveOutcome.postFailed)
  | (some pin_id, msg) =>
    let st1 : AppState :=
      { st with logs := msg :: st.logs, published := st.published ++ [pin.product_url] }
    match mark_product_posted st1.db pin.product_id now pin_id with
    | DbResult.integrityError =>
      (st1, ApproveOutcome.crashed
        "sqlite3.IntegrityError: UNIQUE constraint failed: posted_products.product_id")
    | DbResult.ok db2 =>
      let okMsg := "✅ Successfully posted and marked " ++ pyQuote ++ pin.title
        ++ pyQuote ++ " as complete."
      (⟨st1.pins_to_review, db2, st1.published, okMsg :: st1.logs⟩,
        ApproveOutcome.posted pin_id)

/-!
## Helper lemmas
-/

theorem getD_eq_getElem_of_lt (l : List α) (d : α) (i : Nat) (h : i < l.length) :
    l.getD i d = l[i] := by
  rw [List.getD_eq_getElem?_getD, List.getElem?_eq_getElem h, Option.getD_some]

theorem getD_mem_of_lt (l : List α) (d : α) (i : Nat) (h : i < l.length) :
    l.getD i d ∈ l := by
  rw [getD_eq_getElem_of_lt l d i h]
  exact List.getElem_mem h

theorem pick1_mem (a : Nat) (rest : List Nat) (rv : Nat) :
    pick1 (a :: rest) rv ∈ a :: rest :=
  getD_mem_of_lt _ _ _ (Nat.mod_lt _ (by simp))

theorem drawIdxs_subset (k : Nat) (avail : List Nat) (r : Nat → Nat) :
    ∀ x ∈ drawIdxs k avail r, x ∈ avail := by
  induction k generalizing avail with
  | zero => intro x hx; simp [drawIdxs] at hx
  | succ k ih =>
    intro x hx
    match avail with
    | [] => simp [drawIdxs] at hx
    | a :: rest =>
      simp only [drawIdxs, List.mem_cons] at hx
      rcases hx with hx | hx
      · rw [hx]
        exact pick1_mem a rest (r k)
      · exact List.mem_of_mem_erase (ih _ x hx)

theorem drawIdxs_length (k : Nat) (avail : List Nat) (r : Nat → Nat)
    (hk : k ≤ avail.length) : (drawIdxs k avail r).length = k := by
  induction k generalizing avail with
  | zero => simp [drawIdxs]
  | succ k ih =>
    match avail with
    | [] => simp at hk
    | a :: rest =>
      have hlen : (((a :: rest).erase (pick1 (a :: rest) (r k))).length)
          = (a :: rest).length - 1 :=
        List.length_erase_of_mem (pick1_mem a rest (r k))
      have hk2 : k ≤ ((a :: rest).erase (pick1 (a :: rest) (r k))).length := by
        rw [hlen]
        simp only [List.length_cons] at hk ⊢
        omega
      simp only [drawIdxs, List.length_cons]
      rw [ih _ hk2]

theorem drawIdxs_nodup (k : Nat) (avail : List Nat) (r : Nat → Nat)
    (hnd : avail.Nodup) : (drawIdxs k avail r).Nodup := by
  induction k generalizing avail with
  | zero => simp [drawIdxs]
  | succ k ih =>
    match avail with
    | [] => simp [drawIdxs]
    | a :: rest =>
      simp only [drawIdxs, List.nodup_cons]
      constructor
      · intro hmem
        have hx := drawIdxs_subset k _ r _ hmem
        have := (List.Nodup.mem_erase_iff hnd).1 hx
        exact this.1 rfl
      · exact ih _ (List.Nodup.erase _ hnd)

theorem randomSample_length (dflt : α) (l : List α) (k : Nat) (r : Nat → Nat)
    (hk : k ≤ l.length) : (randomSample dflt l k r).length = k := by
  unfold randomSample
  rw [List.length_map, drawIdxs_length]
  simpa using hk

theorem randomSample_subset (dflt : α) (l : List α) (k : Nat) (r : Nat → Nat) :
    ∀ x ∈ randomSample dflt l k r, x ∈ l := by
  intro x hx
  unfold randomSample at hx
  rcases List.mem_map.1 hx with ⟨i, hi, hix⟩
  have hir : i ∈ List.range l.length := drawIdxs_subset _ _ _ i hi
  have hlt : i < l.length := List.mem_range.1 hir
  rw [← hix]
  exact getD_mem_of_lt _ _ _ hlt

theorem randomSample_nodup (dflt : α) (l : List α) (k : Nat) (r : Nat → Nat)
    (hnd : l.Nodup) : (randomSample dflt l k r).Nodup := by
  unfold randomSample
  refine List.Nodup.map_on ?_ (drawIdxs_nodup _ _ _ (List.nodup_range _))
  intro i hi j hj hij
  have hilt : i < l.length := List.mem_range.1 (drawIdxs_subset _ _ _ i hi)
  have hjlt : j < l.length := List.mem_range.1 (drawIdxs_subset _ _ _ j hj)
  rw [getD_eq_getElem_of_lt l dflt i hilt, getD_eq_getElem_of_lt l dflt j hjlt] at hij
  exact (List.Nodup.getElem_inj_iff hnd).1 hij

theorem splitCharAux_ne_nil (c : Char) (l acc : List Char) :
    splitCharAux c l acc ≠ [] := by
  induction l generalizing acc with
  | nil => simp [splitCharAux]
  | cons x xs ih =>
    simp only [splitCharAux]
    by_cases hx : x = c
    · simp [hx]
    · simpa [hx] using ih (x :: acc)

theorem splitCharAux_of_no_sep (c : Char) (l acc : List Char)
    (h : ∀ x ∈ l, x ≠ c) : splitCharAux c l acc = [acc.reverse ++ l] := by
  induction l generalizing acc with
  | nil => simp [splitCharAux]
  | cons x xs ih =>
    have hx : x ≠ c := h x (List.mem_cons_self x xs)
    simp only [splitCharAux, if_neg hx]
    rw [ih (x :: acc) (fun y hy => h y (List.mem_cons_of_mem x hy))]
    simp

theorem getLastD_irrel {α : Type} (l : List α) (d d' : α) (h : l ≠ []) :
    l.getLastD d = l.getLastD d' := by
  match l with
  | [] => exact absurd rfl h
  | x :: xs =>
    rw [List.getLastD_eq_getLast?, List.getLastD_eq_getLast?]
    rw [List.getLast?_eq_getLast (x :: xs) (by simp)]
    simp

theorem splitCharAux_getLastD_append (c : Char) (ys : List Char) :
    ∀ (xs acc : List Char),
      (splitCharAux c (xs ++ c :: ys) acc).getLastD []
        = (splitCharAux c ys []).getLastD [] := by
  intro xs
  induction xs with
  | nil =>
    intro acc
    have hstep : splitCharAux c (([] : List Char) ++ c :: ys) acc
        = acc.reverse :: splitCharAux c ys [] := by
      simp [splitCharAux]
    rw [hstep, List.getLastD_cons]
    exact getLastD_irrel _ _ _ (splitCharAux_ne_nil c ys [])
  | cons x xs ih =>
    intro acc
    by_cases hx : x = c
    · have hstep : splitCharAux c ((x :: xs) ++ c :: ys) acc
          = acc.reverse :: splitCharAux c (xs ++ c :: ys) [] := by
        simp [splitCharAux, hx]
      rw [hstep, List.getLastD_cons]
      calc (splitCharAux c (xs ++ c :: ys) []).getLastD acc.reverse
          = (splitCharAux c (xs ++ c :: ys) []).getLastD [] :=
            getLastD_irrel _ _ _ (splitCharAux_ne_nil _ _ _)
        _ = (splitCharAux c ys []).getLastD [] := ih []
    · have hstep : splitCharAux c ((x :: xs) ++ c :: ys) acc
          = splitCharAux c (xs ++ c :: ys) (x :: acc) := by
        simp [splitCharAux, hx]
      rw [hstep]
      exact ih (x :: acc)

/-- The last line of `p ++ "\n" ++ d` is `d`, whenever `d` itself contains
no newline. -/
theorem lastLine_append (p d : String)
    (hd : ∀ x ∈ d.data, x ≠ Char.ofNat 10) :
    lastLine (p ++ "\n" ++ d) = d := by
  have hnl : ("\n" : String).data = [Char.ofNat 10] := rfl
  have hdata : (p ++ "\n" ++ d).data = p.data ++ Char.ofNat 10 :: d.data := by
    simp only [String.data_append, hnl]
    simp
  unfold lastLine
  rw [hdata, splitCharAux_getLastD_append, splitCharAux_of_no_sep _ _ _ hd]
  simp

/-!
## Claims
-/

/-- C1: for every ledger state, feed content, batch limit and random
oracle, every product in the batch selected for enrichment has an
identifier that is not in the Ledger: `is_product_posted(p.product_id)`
is `false` for every selected `p`. -/
theorem C1_intake_never_selects_posted (db : Ledger) (products : List Product)
    (max_pins_per_run : Nat) (r : Nat → Nat) :
    ∀ p ∈ products_to_process db products max_pins_per_run r,
      is_product_posted db p.product_id = false := by
  intro p hp
  have hmem : p ∈ unposted_products db products :=
    randomSample_subset _ _ _ _ p hp
  unfold unposted_products at hmem
  have hfil := List.of_mem_filter hmem
  simpa using hfil

theorem C1_intake_never_selects_posted_witness :
    (⟨"B", "Bn", "d", "9", "i", "l"⟩ : Product) ∈
        products_to_process [⟨"A", 0, "p"⟩]
          [⟨"A", "An", "d", "9", "i", "l"⟩, ⟨"B", "Bn", "d", "9", "i", "l"⟩] 5 (fun _ => 0)
    ∧ is_product_posted [⟨"A", 0, "p"⟩]
        (Product.product_id ⟨"B", "Bn", "d", "9", "i", "l"⟩) = false :=
  ⟨by decide,
   C1_intake_never_selects_posted ([⟨"A", 0, "p"⟩] : Ledger)
     ([⟨"A", "An", "d", "9", "i", "l"⟩, ⟨"B", "Bn", "d", "9", "i", "l"⟩] : List Product)
     5 (fun _ => 0) (⟨"B", "Bn", "d", "9", "i", "l"⟩ : Product) (by decide)⟩

/-- C2: recording the same identifier twice commits the first insert,
fails the second with the SQLite duplicate-key `IntegrityError` instead
of overwriting, and leaves the entry count one (not two) above the
original. -/
theorem C2_double_record_fails (db : Ledger) (product_id : String)
    (t1 t2 : Nat) (pin1 pin2 : String)
    (h : is_product_posted db product_id = false) :
    mark_product_posted db product_id t1 pin1
        = DbResult.ok (db ++ [⟨product_id, t1, pin1⟩])
    ∧ mark_product_posted (db ++ [⟨product_id, t1, pin1⟩]) product_id t2 pin2
        = DbResult.integrityError
    ∧ (db ++ [(⟨product_id, t1, pin1⟩ : LedgerEntry)]).length = db.length + 1 := by
  refine ⟨?_, ?_, by simp⟩
  · simp [mark_product_posted, h]
  · simp [mark_product_posted, is_product_posted]

theorem C2_double_record_fails_witness :
    is_product_posted [] "P1" = false
    ∧ (mark_product_posted [] "P1" 0 "pinA"
          = DbResult.ok ([] ++ [⟨"P1", 0, "pinA"⟩])
       ∧ mark_product_posted ([] ++ [⟨"P1", 0, "pinA"⟩]) "P1" 1 "pinB"
          = DbResult.integrityError
       ∧ (([] : Ledger) ++ [(⟨"P1", 0, "pinA"⟩ : LedgerEntry)]).length
          = ([] : Ledger).length + 1) :=
  ⟨rfl, C2_double_record_fails [] "P1" 0 1 "pinA" "pinB" rfl⟩

/-- C4: the sampled batch has exactly `min M N` elements where `M` is the
number of eligible (unposted) products and `N` the batch limit; every
sampled element is an eligible product; and the sample is without
replacement (no duplicates whenever the eligible list has none). -/
theorem C4_sample_size_membership_distinct (db : Ledger) (products : List Product)
    (max_pins_per_run : Nat) (r : Nat → Nat) :
    (products_to_process db products max_pins_per_run r).length
        = min (unposted_products db products).length max_pins_per_run
    ∧ (∀ p ∈ products_to_process db products max_pins_per_run r,
          p ∈ unposted_products db products)
    ∧ ((unposted_products db products).Nodup →
          (products_to_process db products max_pins_per_run r).Nodup) :=
  ⟨randomSample_length _ _ _ _ (Nat.min_le_left _ _),
   fun p hp => randomSample_subset _ _ _ _ p hp,
   fun hnd => randomSample_nodup _ _ _ _ hnd⟩

theorem C4_sample_size_membership_distinct_witness :
    (products_to_process []
        [⟨"A", "An", "d", "9", "i", "l"⟩, ⟨"B", "Bn", "d", "9", "i", "l"⟩,
         ⟨"C", "Cn", "d", "9", "i", "l"⟩] 2 (fun _ => 0)).length = 2
    ∧ (products_to_process []
        [⟨"A", "An", "d", "9", "i", "l"⟩, ⟨"B", "Bn", "d", "9", "i", "l"⟩,
         ⟨"C", "Cn", "d", "9", "i", "l"⟩] 2 (fun _ => 0)).Nodup :=
  have h := C4_sample_size_membership_distinct ([] : Ledger)
    ([⟨"A", "An", "d", "9", "i", "l"⟩, ⟨"B", "Bn", "d", "9", "i", "l"⟩,
      ⟨"C", "Cn", "d", "9", "i", "l"⟩] : List Product) 2 (fun _ => 0)
  ⟨h.1.trans (by decide), h.2.2 (by decide)⟩

/-- C6: whenever the fetched text parses into a table that lacks at least
one required column, the loader returns the empty product sequence
together with the missing-columns message, and that message names every
missing field (it lists all required column names). -/
theorem C6_missing_column_schema_error (net : String → NetResult) (url text : String)
    (df : DataFrame)
    (hurl1 : url ≠ "") (hurl2 : strContains "..." url = false)
    (hnet : net url = NetResult.ok text)
    (hparse : parse_feed text = Except.ok df)
    (hmiss : required_cols.all (fun col => df.columns.contains col) = false) :
    fetch_awin_product_feed net url = (emptyDF, missingColsMsg)
    ∧ ∀ col ∈ required_cols, df.columns.contains col = false →
        strContains col missingColsMsg = true := by
  constructor
  · have hcond : (url = "" || strContains "..." url) = false := by
      simp [hurl1, hurl2]
    unfold fetch_awin_product_feed
    rw [hcond, hnet]
    simp only [Bool.false_eq_true, if_false]
    rw [hparse]
    have hmiss2 : ¬ ((required_cols.all fun col => df.columns.contains col) = true) := by
      rw [hmiss]
      exact Bool.false_ne_true
    simp only [if_neg hmiss2]
  · have hall : ∀ col ∈ required_cols, strContains col missingColsMsg = true := by decide
    exact fun col hcol _ => hall col hcol

theorem C6_missing_column_schema_error_witness :
    fetch_awin_product_feed
        (fun _ => NetResult.ok
          "product_name,awin_deep_link,product_image,description,price\nA,B,C,D,E")
        "http://feed.example/f.csv" = (emptyDF, missingColsMsg)
    ∧ strContains "product_id" missingColsMsg = true :=
  have h := C6_missing_column_schema_error
    (fun _ => NetResult.ok
      "product_name,awin_deep_link,product_image,description,price\nA,B,C,D,E")
    "http://feed.example/f.csv"
    "product_name,awin_deep_link,product_image,description,price\nA,B,C,D,E"
    (⟨["product_name", "awin_deep_link", "product_image", "description", "price"],
      [["A", "B", "C", "D", "E"]]⟩ : DataFrame)
    (by decide) (by decide) rfl rfl (by decide)
  ⟨h.1, h.2 "product_id" (by decide) (by decide)⟩

/-- C7 (counterexample): a well-formed tab-delimited feed containing every
required column is NOT parsed successfully: the comma parse succeeds as a
single column (raising nothing), the tab fallback never runs, and the
loader rejects the feed with the missing-columns message. -/
theorem C7_counterexample_tab_feed_rejected :
    fetch_awin_product_feed
      (fun _ => NetResult.ok
        "product_name\tawin_deep_link\tproduct_image\tdescription\tprice\tproduct_id\nChair\thttp://x\thttp://img\tNice\t9.99\tP1")
      "http://feed.example/f.csv"
      = (emptyDF, missingColsMsg) := by decide

/-- C7 (amended): the loader attempts the comma delimiter first and falls
back to the tab delimiter only when the comma parse raises a parsing
error — a row wider than the width established by the header and first
data row — never on a mere schema mismatch; when the comma parse raises
and the tab parse yields a table with all required columns, the feed is
parsed successfully. -/
theorem C7_comma_error_tab_fallback (net : String → NetResult) (url text : String)
    (df : DataFrame) (e : String)
    (hurl1 : url ≠ "") (hurl2 : strContains "..." url = false)
    (hnet : net url = NetResult.ok text)
    (hcomma : read_csv ',' text = Except.error e)
    (htab : read_csv (Char.ofNat 9) text = Except.ok df)
    (hcols : required_cols.all (fun col => df.columns.contains col) = true) :
    fetch_awin_product_feed net url
      = (df, "Successfully fetched and parsed " ++ toString df.rows.length
          ++ " products from the feed.") := by
  have hparse : parse_feed text = Except.ok df := by
    unfold parse_feed
    rw [hcomma]
    exact htab
  have hcond : (url = "" || strContains "..." url) = false := by
    simp [hurl1, hurl2]
  unfold fetch_awin_product_feed
  rw [hcond, hnet]
  simp only [Bool.false_eq_true, if_false]
  rw [hparse]
  simp only [if_pos hcols]

theorem C7_comma_error_tab_fallback_witness :
    fetch_awin_product_feed
      (fun _ => NetResult.ok
        "product_name\tawin_deep_link\tproduct_image\tdescription\tprice\tproduct_id\nChair\thttp://x\thttp://img\tNice\t9.99\tP1\nSofa, large\thttp://y\thttp://img2\tComfy\t49.99\tP2")
      "http://feed.example/f.csv"
      = (⟨["product_name", "awin_deep_link", "product_image", "description", "price",
           "product_id"],
          [["Chair", "http://x", "http://img", "Nice", "9.99", "P1"],
           ["Sofa, large", "http://y", "http://img2", "Comfy", "49.99", "P2"]]⟩,
         "Successfully fetched and parsed 2 products from the feed.") :=
  C7_comma_error_tab_fallback
    (fun _ => NetResult.ok
      "product_name\tawin_deep_link\tproduct_image\tdescription\tprice\tproduct_id\nChair\thttp://x\thttp://img\tNice\t9.99\tP1\nSofa, large\thttp://y\thttp://img2\tComfy\t49.99\tP2")
    "http://feed.example/f.csv"
    "product_name\tawin_deep_link\tproduct_image\tdescription\tprice\tproduct_id\nChair\thttp://x\thttp://img\tNice\t9.99\tP1\nSofa, large\thttp://y\thttp://img2\tComfy\t49.99\tP2"
    (⟨["product_name", "awin_deep_link", "product_image", "description", "price",
       "product_id"],
      [["Chair", "http://x", "http://img", "Nice", "9.99", "P1"],
       ["Sofa, large", "http://y", "http://img2", "Comfy", "49.99", "P2"]]⟩ : DataFrame)
    "Error tokenizing data"
    (by decide) (by decide) rfl rfl rfl (by decide)

/-- C9: for every feed URL that is empty or contains the substring
`"..."`, the loader returns the empty product sequence and the
explanatory settings message, independently of the network (the guard
runs before `requests.get`; quantifying over every `net` expresses that
no network request is consulted). -/
theorem C9_placeholder_url_no_fetch (net : String → NetResult) (url : String)
    (h : url = "" ∨ strContains "..." url = true) :
    fetch_awin_product_feed net url
      = (emptyDF, "Please provide a valid AWIN Product Feed URL in the settings.") := by
  unfold fetch_awin_product_feed
  rcases h with h | h
  · subst h
    simp
  · rw [h]
    simp

theorem C9_placeholder_url_no_fetch_witness :
    ("https://productdata.awin.com/datafeed/download/apikey/..." = ""
      ∨ strContains "..." "https://productdata.awin.com/datafeed/download/apikey/..." = true)
    ∧ fetch_awin_product_feed (fun _ => NetResult.fail "network down")
        "https://productdata.awin.com/datafeed/download/apikey/..."
      = (emptyDF, "Please provide a valid AWIN Product Feed URL in the settings.") :=
  ⟨Or.inr (by decide),
   C9_placeholder_url_no_fetch (fun _ => NetResult.fail "network down")
     "https://productdata.awin.com/datafeed/download/apikey/..."
     (Or.inr (by decide))⟩

/-- C5 (failing behaviour at a concrete input): with the generator
enabled, a well-formed key and an external call that raises, the code
returns the error text with success flag `false` — it does NOT fall back
to the template path, so the candidate is failed (the app loop skips any
product whose flag is `false`), despite the message claiming "Falling
back to template". -/
theorem C5_generation_failure_not_recovered :
    generate_pin_description "Ceramic Vase" "A handmade vase" "19.99" true
        "sk-live-key" "#Ad #CommissionsEarned" (some ["HomeDecor", "InteriorDesign"])
        (Except.error "boom") 0 (fun _ => 0)
      = ("Error with OpenAI: boom. Falling back to template.", false) := by decide

/-- C8: on the template path the generated description is the chosen
template, a blank line, the hashtag block and the disclaimer; the hashtag
block holds exactly `min (pool size) 3` tags, each of the form
`"#" ++ strip(tag)` for a pool member, pairwise distinct whenever the
stripped pool has no duplicates. -/
theorem C8_hashtags_count_distinct_from_pool
    (product_title product_desc price openai_api_key disclaimer : String)
    (pool : List String) (ai : Except String String) (c : Nat) (r : Nat → Nat) :
    (generate_pin_description product_title product_desc price false openai_api_key
        disclaimer (some pool) ai c r).1
      = (pin_templates product_title price).getD (c % 3) "" ++ "\n\n"
        ++ joinSep " " ((randomSample "" pool (min pool.length 3) r).map
            (fun tag => "#" ++ pyStrip tag)) ++ "\n" ++ disclaimer
    ∧ ((randomSample "" pool (min pool.length 3) r).map
          (fun tag => "#" ++ pyStrip tag)).length = min pool.length 3
    ∧ (∀ t ∈ (randomSample "" pool (min pool.length 3) r).map
          (fun tag => "#" ++ pyStrip tag), ∃ u ∈ pool, t = "#" ++ pyStrip u)
    ∧ ((pool.map pyStrip).Nodup →
        ((randomSample "" pool (min pool.length 3) r).map
          (fun tag => "#" ++ pyStrip tag)).Nodup) := by
  refine ⟨rfl, ?_, ?_, ?_⟩
  · rw [List.length_map]
    exact randomSample_length _ _ _ _ (Nat.min_le_left _ _)
  · intro t ht
    rcases List.mem_map.1 ht with ⟨u, hu, hut⟩
    exact ⟨u, randomSample_subset _ _ _ _ u hu, hut.symm⟩
  · intro hnd
    have hpool_nd : pool.Nodup := List.Nodup.of_map _ hnd
    refine List.Nodup.map_on ?_ (randomSample_nodup _ _ _ _ hpool_nd)
    intro x hx y hy hxy
    have hx2 : x ∈ pool := randomSample_subset _ _ _ _ x hx
    have hy2 : y ∈ pool := randomSample_subset _ _ _ _ y hy
    have hdata := congrArg String.data hxy
    rw [String.data_append, String.data_append] at hdata
    have htl : (pyStrip x).data = (pyStrip y).data := by
      simpa using hdata
    exact List.inj_on_of_nodup_map hnd hx2 hy2 (String.ext htl)

theorem C8_hashtags_count_distinct_from_pool_witness :
    ((randomSample ""
        ["HomeDecor", "InteriorDesign", "DreamHome", "HomeInspo", "AffiliateMarketing"]
        (min (List.length
          ["HomeDecor", "InteriorDesign", "DreamHome", "HomeInspo", "AffiliateMarketing"]) 3)
        (fun _ => 0)).map (fun tag => "#" ++ pyStrip tag)).length = 3
    ∧ ((randomSample ""
        ["HomeDecor", "InteriorDesign", "DreamHome", "HomeInspo", "AffiliateMarketing"]
        (min (List.length
          ["HomeDecor", "InteriorDesign", "DreamHome", "HomeInspo", "AffiliateMarketing"]) 3)
        (fun _ => 0)).map (fun tag => "#" ++ pyStrip tag)).Nodup
    ∧ (∃ u ∈ ["HomeDecor", "InteriorDesign", "DreamHome", "HomeInspo", "AffiliateMarketing"],
        "#HomeDecor" = "#" ++ pyStrip u) :=
  have h := C8_hashtags_count_distinct_from_pool "Vase" "A vase" "19.99" "key"
    "#Ad #CommissionsEarned"
    ["HomeDecor", "InteriorDesign", "DreamHome", "HomeInspo", "AffiliateMarketing"]
    (Except.ok "") 0 (fun _ => 0)
  ⟨h.2.1.trans (by decide), h.2.2.2 (by decide), h.2.2.1 "#HomeDecor" (by decide)⟩

/-- C10: with the external generator disabled, `generate_pin_description`
always succeeds (flag `true`) with a non-empty description; the final
line of the description is the supplied disclaimer whenever the
disclaimer itself contains no newline; and for both an empty pool and a
non-sequence hashtag value the hashtag block is empty instead of an
exception propagating. -/
theorem C10_template_path_always_succeeds
    (product_title product_desc price openai_api_key disclaimer : String)
    (hashtag_list : Option (List String)) (ai : Except String String)
    (c : Nat) (r : Nat → Nat) :
    (generate_pin_description product_title product_desc price false openai_api_key
        disclaimer hashtag_list ai c r).2 = true
    ∧ (generate_pin_description product_title product_desc price false openai_api_key
        disclaimer hashtag_list ai c r).1 ≠ ""
    ∧ ((∀ x ∈ disclaimer.data, x ≠ Char.ofNat 10) →
        lastLine (generate_pin_description product_title product_desc price false
          openai_api_key disclaimer hashtag_list ai c r).1 = disclaimer)
    ∧ (hashtag_list = none ∨ hashtag_list = some [] →
        hashtagBlock hashtag_list r = "") := by
  have hgen : (generate_pin_description product_title product_desc price false
      openai_api_key disclaimer hashtag_list ai c r).1
      = (pin_templates product_title price).getD (c % 3) "" ++ "\n\n"
        ++ hashtagBlock hashtag_list r ++ "\n" ++ disclaimer := rfl
  refine ⟨rfl, ?_, ?_, ?_⟩
  · intro h
    rw [hgen] at h
    have hlen := congrArg String.length h
    rw [String.length_append, String.length_append, String.length_append,
      String.length_append] at hlen
    have h2 : ("\n\n" : String).length = 2 := rfl
    have h1 : ("\n" : String).length = 1 := rfl
    have h0 : ("" : String).length = 0 := rfl
    rw [h2, h1, h0] at hlen
    omega
  · intro hnl
    rw [hgen]
    exact lastLine_append _ _ hnl
  · rintro (h | h) <;> rw [h] <;> rfl

theorem C10_template_path_always_succeeds_witness :
    (generate_pin_description "Vase" "A vase" "19.99" false "key"
        "#Ad #CommissionsEarned" none (Except.ok "") 0 (fun _ => 0)).2 = true
    ∧ (generate_pin_description "Vase" "A vase" "19.99" false "key"
        "#Ad #CommissionsEarned" none (Except.ok "") 0 (fun _ => 0)).1 ≠ ""
    ∧ lastLine (generate_pin_description "Vase" "A vase" "19.99" false "key"
        "#Ad #CommissionsEarned" none (Except.ok "") 0 (fun _ => 0)).1
      = "#Ad #CommissionsEarned"
    ∧ hashtagBlock none (fun _ => 0) = "" :=
  have h := C10_template_path_always_succeeds "Vase" "A vase" "19.99" "key"
    "#Ad #CommissionsEarned" none (Except.ok "") 0 (fun _ => 0)
  ⟨h.1, h.2.1, h.2.2.1 (by decide), h.2.2.2 (Or.inl rfl)⟩

/-- C3 (failing behaviour at a concrete input): approving the same staged
candidate twice with valid credentials publishes a second time (the
simulated `create_pin` runs again: `published` has two entries) and then
crashes with an uncaught `sqlite3.IntegrityError` from
`mark_product_posted`; the candidate is never removed from the staging
queue, so the double invocation is neither a no-op nor a handled
`NotFound`/`DuplicateKey` outcome. -/
theorem C3_double_approve_publishes_again_and_crashes :
    (approveClick (⟨[⟨"P1", "Vase", "desc", "img.jpg", "http://aff/1"⟩], [], [], []⟩)
        ⟨"P1", "Vase", "desc", "img.jpg", "http://aff/1"⟩ "tok123" "board9" "u1" 0).2
      = ApproveOutcome.posted "simulated_u1"
    ∧ (approveClick
        (approveClick (⟨[⟨"P1", "Vase", "desc", "img.jpg", "http://aff/1"⟩], [], [], []⟩)
          ⟨"P1", "Vase", "desc", "img.jpg", "http://aff/1"⟩ "tok123" "board9" "u1" 0).1
        ⟨"P1", "Vase", "desc", "img.jpg", "http://aff/1"⟩ "tok123" "board9" "u2" 1).2
      = ApproveOutcome.crashed
          "sqlite3.IntegrityError: UNIQUE constraint failed: posted_products.product_id"
    ∧ (approveClick
        (approveClick (⟨[⟨"P1", "Vase", "desc", "img.jpg", "http://aff/1"⟩], [], [], []⟩)
          ⟨"P1", "Vase", "desc", "img.jpg", "http://aff/1"⟩ "tok123" "board9" "u1" 0).1
        ⟨"P1", "Vase", "desc", "img.jpg", "http://aff/1"⟩ "tok123" "board9" "u2" 1).1.published
      = ["http://aff/1", "http://aff/1"]
    ∧ (approveClick
        (approveClick (⟨[⟨"P1", "Vase", "desc", "img.jpg", "http://aff/1"⟩], [], [], []⟩)
          ⟨"P1", "Vase", "desc", "img.jpg", "http://aff/1"⟩ "tok123" "board9" "u1" 0).1
        ⟨"P1", "Vase", "desc", "img.jpg", "http://aff/1"⟩ "tok123" "board9" "u2" 1).1.pins_to_review
      = [⟨"P1", "Vase", "desc", "img.jpg", "http://aff/1"⟩] := by decide
